import Mathlib

/-!
Verification of the synthetic para-athlete dataset generator
(`generate_para_athlete_data` in `generate_para_athlete_data.py`).

The generator is embedded shallowly:
* 64-bit floats are modelled as exact rationals (`ℚ`); the IEEE value NaN,
  which the source produces through `0.0 / 0.0` when a batch statistic
  denominator vanishes, is modelled by `Option ℚ` (`none` = NaN).
* NumPy's process-wide seeded PRNG (`np.random.seed` followed by vectorised
  sampling calls) is modelled by one deterministic stream of unit-interval
  rationals, consumed in the exact order of the sampling calls in the source;
  element `i` of the `k`-th size-`n` sampling call reads stream position
  `k*n + i`.  The modelled property is the reproducibility contract (a single
  shared stream, fully determined by the seed), not NumPy's exact bit stream.
* `np.round` rounds half to even; `np.clip lo hi` is `min (max · lo) hi`.
-/

namespace ParaAthlete

/-- Round a rational to the nearest integer, ties to even
(the rounding mode of `np.round`). -/
def roundHalfEven (q : ℚ) : ℤ :=
  if q - (⌊q⌋ : ℚ) < 1/2 then ⌊q⌋
  else if 1/2 < q - (⌊q⌋ : ℚ) then ⌊q⌋ + 1
  else if Even ⌊q⌋ then ⌊q⌋ else ⌊q⌋ + 1

/-- Round a rational to `d` decimal places, ties to even: models `np.round(x, d)`
(and `np.round(x)` / `.round(0)` for `d = 0`). -/
def roundTo (d : ℕ) (q : ℚ) : ℚ :=
  (roundHalfEven (q * 10 ^ d) : ℚ) / 10 ^ d

/-- Truncate a value into the closed interval `[lo, hi]`:
models `np.clip(x, lo, hi) = min(max(x, lo), hi)`. -/
def clipQ (x lo hi : ℚ) : ℚ := min (max x lo) hi

/-- A square-root approximation on the rationals, used to model the
floating-point square root inside `ndarray.std()`: the integer square root of
the value scaled by `10^12`, scaled back down.  It is exact at 0 and at
perfect squares of multiples of `10^-6`, which covers everything the
development relies on (no claim depends on the numeric accuracy of the
square root itself). -/
def ratSqrt (q : ℚ) : ℚ :=
  (Nat.sqrt (⌊q * 10 ^ 12⌋).toNat : ℚ) / 10 ^ 6

/-- A NumPy float64 value: either a real (rational) number or NaN. -/
def NpF : Type := Option ℚ

instance : DecidableEq NpF := by unfold NpF; infer_instance

/-- Elementwise float addition; NaN propagates. -/
def npAdd : NpF → NpF → NpF
  | some a, some b => some (a + b)
  | _, _ => none

/-- Elementwise float subtraction; NaN propagates. -/
def npSub : NpF → NpF → NpF
  | some a, some b => some (a - b)
  | _, _ => none

/-- Elementwise float multiplication; NaN propagates. -/
def npMul : NpF → NpF → NpF
  | some a, some b => some (a * b)
  | _, _ => none

/-- Elementwise float division; NaN propagates, and division by zero yields
NaN.  (IEEE division of a nonzero numerator by zero would give ±∞, but at both
division sites of the generator the numerator is exactly zero whenever the
denominator is — a zero standard deviation or a zero max−min spread forces
every deviation to be zero — so `0/0 = NaN` is the only reachable zero-divisor
case.) -/
def npDiv : NpF → NpF → NpF
  | some a, some b => if b = 0 then none else some (a / b)
  | _, _ => none

/-- Elementwise `np.clip`; NaN propagates (`np.clip(nan, lo, hi) = nan`). -/
def npClip (v : NpF) (lo hi : ℚ) : NpF := v.map (fun x => clipQ x lo hi)

/-- Elementwise `np.round` to `d` decimals; NaN propagates. -/
def npRound (d : ℕ) (v : NpF) : NpF := v.map (roundTo d)

/-- Float comparison `c ≤ v`: false when `v` is NaN (IEEE semantics of
`array >= c`). -/
def npGeB (v : NpF) (c : ℚ) : Bool :=
  match v with
  | some q => decide (c ≤ q)
  | none => false

/-- Float comparison `a < b`: false when either side is NaN. -/
def npLtB : NpF → NpF → Bool
  | some a, some b => decide (a < b)
  | _, _ => false

/-- Mean of a float column: models `ndarray.mean()` (the generator only reads
it on nonempty columns; on the empty column NumPy returns NaN after a runtime
warning, and every per-record consumer of it is itself an empty column). -/
def qMean (xs : List ℚ) : ℚ := xs.sum / (xs.length : ℚ)

/-- Population variance of a float column (`ddof = 0`, NumPy's default). -/
def qVar (xs : List ℚ) : ℚ :=
  ((xs.map (fun x => (x - qMean xs) ^ 2)).sum) / (xs.length : ℚ)

/-- Standard deviation of a float column: models `ndarray.std()`. -/
def npStdQ (xs : List ℚ) : ℚ := ratSqrt (qVar xs)

/-- Minimum reduction: models `ndarray.min()` on a nonempty column (NumPy
raises `ValueError` on the empty column; the generator's top-level entry
point surfaces that error for `n_samples = 0` before this value is read). -/
def qMin : List ℚ → ℚ
  | [] => 0
  | x :: xs => xs.foldl min x

/-- Maximum reduction: models `ndarray.max()` on a nonempty column. -/
def qMax : List ℚ → ℚ
  | [] => 0
  | x :: xs => xs.foldl max x

/-- Insert a value into a sorted list (ascending). -/
def insertSorted (x : ℚ) : List ℚ → List ℚ
  | [] => [x]
  | y :: ys => if x ≤ y then x :: y :: ys else y :: insertSorted x ys

/-- Ascending sort, as performed internally by `np.percentile`. -/
def sortQ (xs : List ℚ) : List ℚ := xs.foldr insertSorted []

/-- The 70th percentile with linear interpolation:
models `np.percentile(xs, 70)` (NumPy's default interpolation): with `s` the
ascending sort of `xs` and `h = 0.7 * (len - 1)`, the result is
`s[⌊h⌋] + (h - ⌊h⌋) * (s[⌊h⌋ + 1] - s[⌊h⌋])`. -/
def percentile70 (xs : List ℚ) : ℚ :=
  let s := sortQ xs
  let h : ℚ := ((xs.length : ℚ) - 1) * (70 / 100)
  let k : ℕ := (⌊h⌋).toNat
  let base := s.getD k 0
  base + (h - (⌊h⌋ : ℚ)) * (s.getD (k + 1) base - base)

/-- One step of the linear congruential generator standing in for NumPy's
seeded Mersenne-Twister state transition. -/
def lcgStep (x : ℕ) : ℕ := (1103515245 * x + 12345) % 2147483648

/-- Iterated PRNG state transition. -/
def lcgIter : ℕ → ℕ → ℕ
  | 0, x => x
  | k + 1, x => lcgStep (lcgIter k x)

/-- The `k`-th raw variate of the seeded stream, a rational in `[0, 1)`.
Models the single process-wide stream established by
`np.random.seed(random_state)` (line 9 of the source): every sampling call of
the generator consumes from this one stream, in program order. -/
def U (seed : ℤ) (k : ℕ) : ℚ :=
  (lcgIter (k + 1) seed.toNat : ℚ) / 2147483648

/-- Uniform draw on `[lo, hi)`: models `np.random.uniform(lo, hi)`. -/
def uniformD (lo hi u : ℚ) : ℚ := lo + (hi - lo) * u

/-- Normal draw with mean `mu` and deviation `sigma`: models
`np.random.normal(mu, sigma)` as a deterministic transform of the stream's
unit variate (the modelled property is determinism and stream consumption
order, not the exact distribution shape). -/
def normalD (mu sigma u : ℚ) : ℚ := mu + sigma * (4 * u - 2)

/-- Integer draw from `[lo, hi)`: models `np.random.randint(lo, hi)`. -/
def randintD (lo hi : ℤ) (u : ℚ) : ℤ := lo + ⌊u * ((hi : ℚ) - (lo : ℚ))⌋

/-- Weighted categorical draw: models `np.random.choice(labels, p=weights)`
by inverse transform over the cumulative weights. -/
def choiceP : List String → List ℚ → ℚ → String
  | l :: ls, w :: ws, u => if u < w then l else choiceP ls ws (u - w)
  | l :: _, [], _ => l
  | [], _, _ => ""

/-- Unweighted categorical draw: models `np.random.choice(labels)`. -/
def choiceU (labels : List String) (u : ℚ) : String :=
  labels.getD (⌊u * (labels.length : ℚ)⌋).toNat ""

/-!
Per-record column formulae, translated line by line from
`generate_para_athlete_data.py`.  Each definition takes the seed, the batch
size `n` and the record index `i`; the `k`-th size-`n` sampling call of the
source reads stream positions `k*n + i`.  Sampling-call order (source line):
0 age(24), 1 gender(25), 2 disability(26), 3 sport(27), 4 hours(31),
5 rpe(34), 6 days(37), 7 sleep(47), 8 sleep-quality noise(50),
9 resting-HR noise(56), 10 avg-HR uniform(59), 11 max-HR uniform(60),
12 calorie noise(67), 13 protein uniform(72), 14 protein noise(73),
15 carb uniform(78), 16 carb noise(79), 17 fat uniform(84),
18 water uniform(90), 19 water noise(91), 20 hydration noise(97),
21 fatigue noise(107), 22 soreness noise(115), 23 mood noise(122),
24 motivation noise(129), 25 stress noise(135), 26 stamina noise(145),
27 performance noise(154), 28 injury noise(164).
-/

/-- Gender labels (source line 12). -/
def genders : List String := ["Male", "Female", "Other"]

/-- Disability-type labels (source lines 13–16). -/
def disability_types : List String :=
  ["Amputation", "Visual Impairment", "Cerebral Palsy",
   "Spinal Cord Injury", "Intellectual Impairment"]

/-- Sport-type labels (source lines 17–20). -/
def sport_types : List String :=
  ["Wheelchair Racing", "Para Swimming", "Para Powerlifting",
   "Para Athletics (Track)", "Para Archery"]

/-- Source line 24: `np.clip(np.random.normal(27, 6), 16, 50).round().astype(int)`. -/
def age (seed : ℤ) (n i : ℕ) : ℤ :=
  roundHalfEven (clipQ (normalD 27 6 (U seed (0 * n + i))) 16 50)

/-- Source line 25: `np.random.choice(genders, p=[0.6, 0.35, 0.05])`. -/
def gender (seed : ℤ) (n i : ℕ) : String :=
  choiceP genders [0.6, 0.35, 0.05] (U seed (n + i))

/-- Source line 26: `np.random.choice(disability_types)`. -/
def disability_type (seed : ℤ) (n i : ℕ) : String :=
  choiceU disability_types (U seed (2 * n + i))

/-- Source line 27: `np.random.choice(sport_types)`. -/
def sport_type (seed : ℤ) (n i : ℕ) : String :=
  choiceU sport_types (U seed (3 * n + i))

/-- Source line 31: `np.round(np.random.uniform(0.5, 4.5), 2)`. -/
def training_hours_per_day (seed : ℤ) (n i : ℕ) : ℚ :=
  roundTo 2 (uniformD 0.5 4.5 (U seed (4 * n + i)))

/-- Source line 34: `np.random.randint(3, 10)`. -/
def rpe_score (seed : ℤ) (n i : ℕ) : ℤ :=
  randintD 3 10 (U seed (5 * n + i))

/-- Source line 37: `np.random.randint(3, 8)`. -/
def training_days_per_week (seed : ℤ) (n i : ℕ) : ℤ :=
  randintD 3 8 (U seed (6 * n + i))

/-- Source lines 40–43:
`np.round(training_hours_per_day * rpe_score * training_days_per_week, 1)`. -/
def weekly_training_load (seed : ℤ) (n i : ℕ) : ℚ :=
  roundTo 1 (training_hours_per_day seed n i * (rpe_score seed n i : ℚ) *
    (training_days_per_week seed n i : ℚ))

/-- The fully materialised `weekly_training_load` column of a batch, whose
batch statistics (mean, std, min, max, 70th percentile) feed later stages. -/
def weekly_training_load_col (seed : ℤ) (n : ℕ) : List ℚ :=
  (List.range n).map (weekly_training_load seed n)

/-- Source line 47: `np.clip(np.random.normal(7, 1.2), 4, 9).round(1)`. -/
def sleep_hours (seed : ℤ) (n i : ℕ) : ℚ :=
  roundTo 1 (clipQ (normalD 7 1.2 (U seed (7 * n + i))) 4 9)

/-- Source line 50: `5 + (sleep_hours - 7) * 0.8 + np.random.normal(0, 1)`. -/
def sleep_quality_base (seed : ℤ) (n i : ℕ) : ℚ :=
  5 + (sleep_hours seed n i - 7) * 0.8 + normalD 0 1 (U seed (8 * n + i))

/-- Source line 51: `np.clip(sleep_quality_base, 0, 10).round(1)`. -/
def sleep_quality_score (seed : ℤ) (n i : ℕ) : ℚ :=
  roundTo 1 (clipQ (sleep_quality_base seed n i) 0 10)

/-- Source line 55:
`(weekly_training_load - weekly_training_load.mean()) / weekly_training_load.std()`.
NaN (from `0/0`) when the batch's load column has zero standard deviation,
e.g. for every batch of size 1. -/
def fitness_factor (seed : ℤ) (n i : ℕ) : NpF :=
  npDiv (some (weekly_training_load seed n i - qMean (weekly_training_load_col seed n)))
    (some (npStdQ (weekly_training_load_col seed n)))

/-- Source lines 56–57:
`np.clip(60 - 4 * fitness_factor + np.random.normal(0, 5), 45, 90).round(0)`. -/
def heart_rate_rest (seed : ℤ) (n i : ℕ) : NpF :=
  npRound 0 (npClip
    (npAdd (npSub (some 60) (npMul (some 4) (fitness_factor seed n i)))
      (some (normalD 0 5 (U seed (9 * n + i)))))
    45 90)

/-- Source line 59: the value bound to `heart_rate_avg` before its
reassignment at line 62 — `heart_rate_rest + np.random.uniform(30, 60)`,
not yet clipped. -/
def heart_rate_avg_raw (seed : ℤ) (n i : ℕ) : NpF :=
  npAdd (heart_rate_rest seed n i) (some (uniformD 30 60 (U seed (10 * n + i))))

/-- Source line 60: `heart_rate_avg + np.random.uniform(10, 30)`, computed
from the still-unclipped `heart_rate_avg` of line 59. -/
def heart_rate_max_raw (seed : ℤ) (n i : ℕ) : NpF :=
  npAdd (heart_rate_avg_raw seed n i) (some (uniformD 10 30 (U seed (11 * n + i))))

/-- Source line 62: `np.clip(heart_rate_avg, 90, 180).round(0)`. -/
def heart_rate_avg (seed : ℤ) (n i : ℕ) : NpF :=
  npRound 0 (npClip (heart_rate_avg_raw seed n i) 90 180)

/-- Source line 63: `np.clip(heart_rate_max, 120, 210).round(0)`. -/
def heart_rate_max (seed : ℤ) (n i : ℕ) : NpF :=
  npRound 0 (npClip (heart_rate_max_raw seed n i) 120 210)

/-- Source line 67: `1800 + training_hours_per_day * 250 + np.random.normal(0, 150)`. -/
def base_cal (seed : ℤ) (n i : ℕ) : ℚ :=
  1800 + training_hours_per_day seed n i * 250 + normalD 0 150 (U seed (12 * n + i))

/-- Source line 68: `np.clip(base_cal, 1500, 4000).round(0)`. -/
def daily_calorie_intake (seed : ℤ) (n i : ℕ) : ℚ :=
  roundTo 0 (clipQ (base_cal seed n i) 1500 4000)

/-- Source lines 71–75: `np.clip(training_hours_per_day * np.random.uniform(25, 35)
+ np.random.normal(0, 10), 40, 220).round(0)`. -/
def protein_intake_g (seed : ℤ) (n i : ℕ) : ℚ :=
  roundTo 0 (clipQ
    (training_hours_per_day seed n i * uniformD 25 35 (U seed (13 * n + i)) +
      normalD 0 10 (U seed (14 * n + i))) 40 220)

/-- Source lines 77–81: `np.clip(training_hours_per_day * np.random.uniform(60, 90)
+ np.random.normal(0, 30), 100, 600).round(0)`.  Computed (and consuming its
stream draws) but never placed in the output frame. -/
def carbohydrate_intake_g (seed : ℤ) (n i : ℕ) : ℚ :=
  roundTo 0 (clipQ
    (training_hours_per_day seed n i * uniformD 60 90 (U seed (15 * n + i)) +
      normalD 0 30 (U seed (16 * n + i))) 100 600)

/-- Source lines 83–86: `np.clip(daily_calorie_intake * np.random.uniform(0.2, 0.3)
/ 9, 30, 150).round(0)`.  Computed but never placed in the output frame. -/
def fat_intake_g (seed : ℤ) (n i : ℕ) : ℚ :=
  roundTo 0 (clipQ
    (daily_calorie_intake seed n i * uniformD 0.2 0.3 (U seed (17 * n + i)) / 9)
    30 150)

/-- Source lines 89–93: `np.clip(1.5 + training_hours_per_day *
np.random.uniform(0.4, 0.7) + np.random.normal(0, 0.3), 1.0, 6.0).round(2)`. -/
def water_intake_liters (seed : ℤ) (n i : ℕ) : ℚ :=
  roundTo 2 (clipQ
    (1.5 + training_hours_per_day seed n i * uniformD 0.4 0.7 (U seed (18 * n + i)) +
      normalD 0 0.3 (U seed (19 * n + i))) 1 6)

/-- Source lines 95–99: `np.clip(60 + (water_intake_liters - 2.5) * 12 +
np.random.normal(0, 8), 30, 100).round(0)`. -/
def hydration_level (seed : ℤ) (n i : ℕ) : ℚ :=
  roundTo 0 (clipQ
    (60 + (water_intake_liters seed n i - 2.5) * 12 + normalD 0 8 (U seed (20 * n + i)))
    30 100)

/-- Source lines 103–108:
`(weekly_training_load - load.min()) / (load.max() - load.min()) * 6
- (sleep_hours - 7) * 0.8 + np.random.normal(3, 1.5)`.
NaN (from `0/0`) when the batch's load column has zero spread. -/
def fatigue_raw (seed : ℤ) (n i : ℕ) : NpF :=
  npAdd
    (npSub
      (npMul
        (npDiv (some (weekly_training_load seed n i - qMin (weekly_training_load_col seed n)))
          (some (qMax (weekly_training_load_col seed n) - qMin (weekly_training_load_col seed n))))
        (some 6))
      (some ((sleep_hours seed n i - 7) * 0.8)))
    (some (normalD 3 1.5 (U seed (21 * n + i))))

/-- Source line 109: `np.clip(fatigue_raw, 0, 10).round(1)`. -/
def fatigue_level (seed : ℤ) (n i : ℕ) : NpF :=
  npRound 1 (npClip (fatigue_raw seed n i) 0 10)

/-- Source lines 112–116:
`0.6 * fatigue_level + 0.3 * (rpe_score - 3) + np.random.normal(0, 1)`. -/
def muscle_soreness_raw (seed : ℤ) (n i : ℕ) : NpF :=
  npAdd
    (npAdd (npMul (some 0.6) (fatigue_level seed n i))
      (some (0.3 * ((rpe_score seed n i : ℚ) - 3))))
    (some (normalD 0 1 (U seed (22 * n + i))))

/-- Source line 117: `np.clip(muscle_soreness_raw, 0, 10).round(1)`. -/
def muscle_soreness_level (seed : ℤ) (n i : ℕ) : NpF :=
  npRound 1 (npClip (muscle_soreness_raw seed n i) 0 10)

/-- Source lines 120–124: `np.clip(7 - 0.3 * fatigue_level +
0.2 * sleep_quality_score + np.random.normal(0, 1), 0, 10).round(1)`. -/
def mood_score (seed : ℤ) (n i : ℕ) : NpF :=
  npRound 1 (npClip
    (npAdd
      (npAdd (npSub (some 7) (npMul (some 0.3) (fatigue_level seed n i)))
        (some (0.2 * sleep_quality_score seed n i)))
      (some (normalD 0 1 (U seed (23 * n + i)))))
    0 10)

/-- The per-record motivation formula of source lines 126–131:
`np.clip(6 + 0.3 * ind - 0.2 * fatigue + noise, 0, 10).round(1)`, where `ind`
is the boolean `weekly_training_load > weekly_training_load.mean()` (NumPy
coerces the boolean array to `0.0`/`1.0` under `0.3 * …`). -/
def motivation_formula (ind : Bool) (fatigue : NpF) (noise : ℚ) : NpF :=
  npRound 1 (npClip
    (npAdd
      (npSub (some (6 + 0.3 * (if ind then 1 else 0)))
        (npMul (some 0.2) fatigue))
      (some noise))
    0 10)

/-- Source lines 126–131: `np.clip(6 + 0.3 * (weekly_training_load >
weekly_training_load.mean()) - 0.2 * fatigue_level + np.random.normal(0, 1),
0, 10).round(1)`. -/
def motivation_level (seed : ℤ) (n i : ℕ) : NpF :=
  motivation_formula
    (decide (weekly_training_load seed n i > qMean (weekly_training_load_col seed n)))
    (fatigue_level seed n i)
    (normalD 0 1 (U seed (24 * n + i)))

/-- Source lines 133–137: `np.clip(3 + 0.4 * fatigue_level -
0.2 * sleep_quality_score + np.random.normal(0, 1), 0, 10).round(1)`. -/
def stress_level (seed : ℤ) (n i : ℕ) : NpF :=
  npRound 1 (npClip
    (npAdd
      (npSub (npAdd (some 3) (npMul (some 0.4) (fatigue_level seed n i)))
        (some (0.2 * sleep_quality_score seed n i)))
      (some (normalD 0 1 (U seed (25 * n + i)))))
    0 10)

/-- Source lines 140–146: `40 + 2.5 * training_hours_per_day +
3 * (sleep_hours - 6) - 3 * (fatigue_level - 5) + np.random.normal(0, 8)`. -/
def stamina_raw (seed : ℤ) (n i : ℕ) : NpF :=
  npAdd
    (npSub
      (some (40 + 2.5 * training_hours_per_day seed n i + 3 * (sleep_hours seed n i - 6)))
      (npMul (some 3) (npSub (fatigue_level seed n i) (some 5))))
    (some (normalD 0 8 (U seed (26 * n + i))))

/-- Source line 147: `np.clip(stamina_raw, 0, 100).round(1)`. -/
def stamina_level (seed : ℤ) (n i : ℕ) : NpF :=
  npRound 1 (npClip (stamina_raw seed n i) 0 100)

/-- Source lines 150–155: `(0.5 * stamina_level + 3 * mood_score -
2 * fatigue_level + np.random.normal(0, 5)) / 1.2`. -/
def performance_raw (seed : ℤ) (n i : ℕ) : NpF :=
  npDiv
    (npAdd
      (npSub
        (npAdd (npMul (some 0.5) (stamina_level seed n i))
          (npMul (some 3) (mood_score seed n i)))
        (npMul (some 2) (fatigue_level seed n i)))
      (some (normalD 0 5 (U seed (27 * n + i)))))
    (some 1.2)

/-- Source line 156: `np.clip(performance_raw, 0, 100).round(1)`. -/
def performance_score (seed : ℤ) (n i : ℕ) : NpF :=
  npRound 1 (npClip (performance_raw seed n i) 0 100)

/-- Source lines 159–165: `0.08 * fatigue_level + 0.06 * muscle_soreness_level
+ 0.04 * stress_level - 0.03 * sleep_quality_score + np.random.normal(0, 0.05)`. -/
def injury_risk_score_raw (seed : ℤ) (n i : ℕ) : NpF :=
  npAdd
    (npSub
      (npAdd
        (npAdd (npMul (some 0.08) (fatigue_level seed n i))
          (npMul (some 0.06) (muscle_soreness_level seed n i)))
        (npMul (some 0.04) (stress_level seed n i)))
      (some (0.03 * sleep_quality_score seed n i)))
    (some (normalD 0 0.05 (U seed (28 * n + i))))

/-- Source line 166: `np.clip(injury_risk_score_raw, 0, 1).round(2)`. -/
def injury_risk_score (seed : ℤ) (n i : ℕ) : NpF :=
  npRound 2 (npClip (injury_risk_score_raw seed n i) 0 1)

/-- Source line 168: `((fatigue_level >= 7) & (weekly_training_load >
np.percentile(weekly_training_load, 70))).astype(int)`.  A NaN
`fatigue_level` compares false, yielding 0. -/
def overtraining_alert (seed : ℤ) (n i : ℕ) : ℤ :=
  if npGeB (fatigue_level seed n i) 7 &&
      decide (weekly_training_load seed n i >
        percentile70 (weekly_training_load_col seed n)) then 1 else 0

/-- One column of the assembled frame, with pandas dtypes: integer columns
(`astype(int)` / `randint`), string columns, and float columns. -/
inductive Col : Type where
  | ints (xs : List ℤ)
  | strs (xs : List String)
  | floats (xs : List NpF)
deriving DecidableEq

/-- The assembled table: named columns in insertion order, as in the `data`
dict of source lines 171–194 (Python dicts and `pd.DataFrame` preserve it). -/
def DataFrame : Type := List (String × Col)

instance : DecidableEq DataFrame := by unfold DataFrame; infer_instance

/-- Source lines 171–197: the `data` dict and `pd.DataFrame(data)`.  Exactly
the 16 listed columns, in dict insertion order; the intermediate columns
(athlete_id, training_hours_per_day, rpe_score, weekly_training_load,
sleep_quality_score, heart_rate_avg, heart_rate_max, carbohydrate_intake_g,
fat_intake_g, muscle_soreness_level, mood_score, motivation_level,
stress_level) are not included. -/
def buildFrame (seed : ℤ) (n : ℕ) : DataFrame :=
  [("age", Col.ints ((List.range n).map (age seed n))),
   ("gender", Col.strs ((List.range n).map (gender seed n))),
   ("disability_type", Col.strs ((List.range n).map (disability_type seed n))),
   ("sport_type", Col.strs ((List.range n).map (sport_type seed n))),
   ("training_days_per_week", Col.ints ((List.range n).map (training_days_per_week seed n))),
   ("sleep_hours", Col.floats ((List.range n).map (fun i => some (sleep_hours seed n i)))),
   ("heart_rate_rest", Col.floats ((List.range n).map (heart_rate_rest seed n))),
   ("daily_calorie_intake", Col.floats ((List.range n).map (fun i => some (daily_calorie_intake seed n i)))),
   ("protein_intake_g", Col.floats ((List.range n).map (fun i => some (protein_intake_g seed n i)))),
   ("water_intake_liters", Col.floats ((List.range n).map (fun i => some (water_intake_liters seed n i)))),
   ("hydration_level", Col.floats ((List.range n).map (fun i => some (hydration_level seed n i)))),
   ("fatigue_level", Col.floats ((List.range n).map (fatigue_level seed n))),
   ("stamina_level", Col.floats ((List.range n).map (stamina_level seed n))),
   ("performance_score", Col.floats ((List.range n).map (performance_score seed n))),
   ("injury_risk_score", Col.floats ((List.range n).map (injury_risk_score seed n))),
   ("overtraining_alert", Col.ints ((List.range n).map (overtraining_alert seed n)))]

/-- Errors surfaced by the generator.  `valueError` models the `ValueError`s
NumPy raises (invalid seed at `np.random.seed`, negative `size=` at the first
sampling call, zero-size reduction at `weekly_training_load.min()`).
`configurationError` is modelled from the spec: the §7 error taxonomy names a
`ConfigurationError` for bad configuration such as a non-positive sample
count, but no such type exists anywhere in the source and no code path raises
it. -/
inductive GenError : Type where
  | valueError (msg : String)
  | configurationError (msg : String)
deriving DecidableEq

/-- Source lines 8–197, `generate_para_athlete_data(n_samples, random_state)`.
The failure cases reproduce, in execution order, the exceptions the source
run raises before any frame is assembled: `np.random.seed` (line 9) raises
`ValueError` for a seed outside `[0, 2**32)`; for `n_samples < 0` the first
`size=n_samples` sampling call (line 24) raises `ValueError`; for
`n_samples = 0` the reduction `weekly_training_load.min()` (line 104) raises
`ValueError` (the earlier `mean()` / `std()` of the empty column only warn
and return NaN, and every per-record column is then the empty array).
Otherwise the frame of source lines 171–197 is returned. -/
def generate_para_athlete_data (n_samples : ℤ) (random_state : ℤ) :
    Except GenError DataFrame :=
  if random_state < 0 ∨ 4294967296 ≤ random_state then
    .error (.valueError "Seed must be between 0 and 2**32 - 1")
  else if n_samples < 0 then
    .error (.valueError "negative dimensions are not allowed")
  else if n_samples = 0 then
    .error (.valueError "zero-size array to reduction operation minimum which has no identity")
  else
    .ok (buildFrame random_state n_samples.toNat)

/-- Length of a column. -/
def colLen : Col → ℕ
  | .ints xs => xs.length
  | .strs xs => xs.length
  | .floats xs => xs.length

/-- The lengths of all columns of a frame, in column order. -/
def colLens (df : DataFrame) : List ℕ := df.map (fun p => colLen p.2)

/-- Cell access in an integer column (`none` when the column is missing, has
another dtype, or the row index is out of range). -/
def cellI (df : DataFrame) (name : String) (i : ℕ) : Option ℤ :=
  match df.lookup name with
  | some (Col.ints xs) => xs.get? i
  | _ => none

/-- Tests that cell `i` of float column `name` is a non-NaN value inside
`[lo, hi]`. -/
def floatColMemB (df : DataFrame) (name : String) (i : ℕ) (lo hi : ℚ) : Bool :=
  match df.lookup name with
  | some (Col.floats xs) =>
    match xs.get? i with
    | some (some q) => decide (lo ≤ q) && decide (q ≤ hi)
    | _ => false
  | _ => false

/-- Tests that cell `i` of integer column `name` lies inside `[lo, hi]`. -/
def intColMemB (df : DataFrame) (name : String) (i : ℕ) (lo hi : ℤ) : Bool :=
  match cellI df name i with
  | some z => decide (lo ≤ z) && decide (z ≤ hi)
  | none => false

/-- Tests that a generator outcome is a raised `ValueError`. -/
def isValueError : Except GenError DataFrame → Bool
  | .error (.valueError _) => true
  | _ => false

/-- Tests that a generator outcome is a raised `ConfigurationError`. -/
def isConfigurationError : Except GenError DataFrame → Bool
  | .error (.configurationError _) => true
  | _ => false

/-! General lemmas about the numeric primitives. -/

/-- Rounding an integer changes nothing. -/
theorem roundHalfEven_intCast (z : ℤ) : roundHalfEven (z : ℚ) = z := by
  unfold roundHalfEven
  rw [Int.floor_intCast]
  norm_num

/-- Half-even rounding moves a value by at most one half. -/
theorem roundHalfEven_bounds (q : ℚ) :
    q - 1/2 ≤ (roundHalfEven q : ℚ) ∧ (roundHalfEven q : ℚ) ≤ q + 1/2 := by
  have h1 : ((⌊q⌋ : ℤ) : ℚ) ≤ q := Int.floor_le q
  have h2 : q < (⌊q⌋ : ℤ) + 1 := Int.lt_floor_add_one q
  unfold roundHalfEven
  split_ifs with ha hb hc
  · constructor <;> [linarith; linarith]
  · push_cast
    constructor <;> [linarith; linarith]
  · constructor <;> [linarith; linarith]
  · push_cast
    have hr : q - (⌊q⌋ : ℚ) = 1/2 := le_antisymm (not_lt.mp hb) (not_lt.mp ha)
    constructor <;> [linarith; linarith]

/-- Half-even rounding keeps a value inside any integer-bounded interval
containing it. -/
theorem roundHalfEven_mem {z₁ z₂ : ℤ} {q : ℚ} (h1 : (z₁ : ℚ) ≤ q) (h2 : q ≤ (z₂ : ℚ)) :
    z₁ ≤ roundHalfEven q ∧ roundHalfEven q ≤ z₂ := by
  have hf1 : z₁ ≤ ⌊q⌋ := Int.le_floor.mpr h1
  have hf2 : ⌊q⌋ ≤ z₂ := by
    calc ⌊q⌋ ≤ ⌊(z₂ : ℚ)⌋ := Int.floor_le_floor h2
    _ = z₂ := Int.floor_intCast z₂
  have hfl : ((⌊q⌋ : ℤ) : ℚ) ≤ q := Int.floor_le q
  unfold roundHalfEven
  split_ifs with ha hb hc
  · exact ⟨hf1, hf2⟩
  · refine ⟨le_trans hf1 (by omega), ?_⟩
    have : ((⌊q⌋ : ℤ) : ℚ) + 1/2 < q := by linarith
    have hlt : ((⌊q⌋ : ℤ) : ℚ) < (z₂ : ℚ) := by linarith
    have : ⌊q⌋ < z₂ := by exact_mod_cast hlt
    omega
  · exact ⟨hf1, hf2⟩
  · refine ⟨le_trans hf1 (by omega), ?_⟩
    have hr : q - (⌊q⌋ : ℚ) = 1/2 := le_antisymm (not_lt.mp hb) (not_lt.mp ha)
    have hlt : ((⌊q⌋ : ℤ) : ℚ) < (z₂ : ℚ) := by linarith
    have : ⌊q⌋ < z₂ := by exact_mod_cast hlt
    omega

/-- Half-even rounding of a value strictly between `z - 1/2` and `z + 1/2`
yields `z`. -/
theorem roundHalfEven_eq {q : ℚ} {z : ℤ} (h1 : (z : ℚ) - 1/2 < q) (h2 : q < (z : ℚ) + 1/2) :
    roundHalfEven q = z := by
  rcases le_or_lt (z : ℚ) q with hz | hz
  · have hfl : ⌊q⌋ = z := Int.floor_eq_iff.mpr ⟨hz, by linarith⟩
    unfold roundHalfEven
    rw [hfl, if_pos (by linarith)]
  · have hfl : ⌊q⌋ = z - 1 := by
      apply Int.floor_eq_iff.mpr
      constructor
      · push_cast; linarith
      · push_cast; linarith
    unfold roundHalfEven
    rw [hfl]
    rw [if_neg (by push_cast; linarith), if_pos (by push_cast; linarith)]
    omega

/-- Rounding to zero decimals is half-even integer rounding. -/
theorem roundTo_zero (q : ℚ) : roundTo 0 q = (roundHalfEven q : ℚ) := by
  unfold roundTo
  norm_num

/-- Rounding to `d` decimals keeps a value inside any integer-bounded
interval containing it. -/
theorem roundTo_int_bounds {d : ℕ} {q : ℚ} {z₁ z₂ : ℤ} (h1 : (z₁ : ℚ) ≤ q) (h2 : q ≤ (z₂ : ℚ)) :
    (z₁ : ℚ) ≤ roundTo d q ∧ roundTo d q ≤ (z₂ : ℚ) := by
  have hp : (0 : ℚ) < 10 ^ d := by positivity
  have hs1 : ((z₁ * 10 ^ d : ℤ) : ℚ) ≤ q * 10 ^ d := by
    push_cast
    exact mul_le_mul_of_nonneg_right h1 (le_of_lt hp)
  have hs2 : q * 10 ^ d ≤ ((z₂ * 10 ^ d : ℤ) : ℚ) := by
    push_cast
    exact mul_le_mul_of_nonneg_right h2 (le_of_lt hp)
  obtain ⟨hb1, hb2⟩ := roundHalfEven_mem hs1 hs2
  have hc1 : ((z₁ * 10 ^ d : ℤ) : ℚ) ≤ (roundHalfEven (q * 10 ^ d) : ℚ) := by exact_mod_cast hb1
  have hc2 : (roundHalfEven (q * 10 ^ d) : ℚ) ≤ ((z₂ * 10 ^ d : ℤ) : ℚ) := by exact_mod_cast hb2
  unfold roundTo
  constructor
  · rw [le_div_iff hp]
    calc (z₁ : ℚ) * 10 ^ d = ((z₁ * 10 ^ d : ℤ) : ℚ) := by push_cast; ring
    _ ≤ _ := hc1
  · rw [div_le_iff hp]
    calc (roundHalfEven (q * 10 ^ d) : ℚ) ≤ ((z₂ * 10 ^ d : ℤ) : ℚ) := hc2
    _ = (z₂ : ℚ) * 10 ^ d := by push_cast; ring

/-- Evaluation rule for `roundTo` away from ties. -/
theorem roundTo_eval (d : ℕ) (q : ℚ) (z : ℤ) (h1 : (z : ℚ) - 1/2 < q * 10 ^ d)
    (h2 : q * 10 ^ d < (z : ℚ) + 1/2) : roundTo d q = (z : ℚ) / 10 ^ d := by
  unfold roundTo
  rw [roundHalfEven_eq h1 h2]

/-- Clipping lands inside the clip interval. -/
theorem clipQ_mem {x lo hi : ℚ} (h : lo ≤ hi) : lo ≤ clipQ x lo hi ∧ clipQ x lo hi ≤ hi := by
  unfold clipQ
  constructor
  · exact le_min (le_max_right x lo) h
  · exact min_le_right _ _

/-- Clipping a value already inside the interval changes nothing. -/
theorem clipQ_of_mem {x lo hi : ℚ} (h1 : lo ≤ x) (h2 : x ≤ hi) : clipQ x lo hi = x := by
  unfold clipQ
  rw [max_eq_left h1, min_eq_left h2]

/-- Clip-then-round into an integer-bounded interval lands inside it. -/
theorem clipRound_mem (d : ℕ) (x : ℚ) {z₁ z₂ : ℤ} (h : (z₁ : ℚ) ≤ (z₂ : ℚ)) :
    (z₁ : ℚ) ≤ roundTo d (clipQ x z₁ z₂) ∧ roundTo d (clipQ x z₁ z₂) ≤ (z₂ : ℚ) := by
  obtain ⟨h1, h2⟩ := clipQ_mem (x := x) h
  exact roundTo_int_bounds h1 h2

/-- Clip-then-round on a non-NaN float lands inside the integer-bounded clip
interval. -/
theorem npRoundClip_mem (d : ℕ) {v : NpF} {q : ℚ} (hv : v = some q) {z₁ z₂ : ℤ}
    (h : (z₁ : ℚ) ≤ (z₂ : ℚ)) :
    ∃ r, npRound d (npClip v (z₁ : ℚ) (z₂ : ℚ)) = some r ∧ (z₁ : ℚ) ≤ r ∧ r ≤ (z₂ : ℚ) := by
  subst hv
  obtain ⟨h1, h2⟩ := clipRound_mem d q h
  exact ⟨roundTo d (clipQ q z₁ z₂), rfl, h1, h2⟩

/-- NaN-free addition. -/
theorem npAdd_some (a b : ℚ) : npAdd (some a) (some b) = some (a + b) := rfl

/-- NaN-free subtraction. -/
theorem npSub_some (a b : ℚ) : npSub (some a) (some b) = some (a - b) := rfl

/-- NaN-free multiplication. -/
theorem npMul_some (a b : ℚ) : npMul (some a) (some b) = some (a * b) := rfl

/-- Division by a nonzero value is NaN-free. -/
theorem npDiv_some {a b : ℚ} (h : b ≠ 0) : npDiv (some a) (some b) = some (a / b) := by
  show (if b = 0 then none else some (a / b)) = some (a / b)
  rw [if_neg h]

/-- Division by zero yields NaN. -/
theorem npDiv_zero (a : ℚ) : npDiv (some a) (some 0) = none := by
  show (if (0 : ℚ) = 0 then none else some (a / 0)) = none
  rw [if_pos rfl]

/-- The raw stream variates lie in `[0, 1)`. -/
theorem U_mem (seed : ℤ) (k : ℕ) : 0 ≤ U seed k ∧ U seed k < 1 := by
  unfold U
  constructor
  · positivity
  · rw [div_lt_one (by norm_num)]
    have h : lcgIter (k + 1) seed.toNat < 2147483648 := by
      show lcgStep (lcgIter k seed.toNat) < 2147483648
      exact Nat.mod_lt _ (by norm_num)
    exact_mod_cast h

/-- A uniform draw on `[lo, hi)` lies in `[lo, hi)`. -/
theorem uniformD_mem {lo hi : ℚ} (h : lo < hi) {u : ℚ} (hu : 0 ≤ u ∧ u < 1) :
    lo ≤ uniformD lo hi u ∧ uniformD lo hi u < hi := by
  unfold uniformD
  constructor
  · nlinarith [hu.1, hu.2]
  · nlinarith [hu.1, hu.2]

/-- The square root model vanishes at zero. -/
theorem ratSqrt_zero : ratSqrt 0 = 0 := by
  unfold ratSqrt
  norm_num

/-- A minimum fold is a lower bound of its accumulator and of every element. -/
theorem foldl_min_le (xs : List ℚ) (a : ℚ) :
    xs.foldl min a ≤ a ∧ ∀ x ∈ xs, xs.foldl min a ≤ x := by
  induction xs generalizing a with
  | nil => exact ⟨le_refl a, by simp⟩
  | cons y ys ih =>
    obtain ⟨h1, h2⟩ := ih (min a y)
    refine ⟨le_trans h1 (min_le_left a y), ?_⟩
    intro x hx
    rcases List.mem_cons.mp hx with hx | hx
    · subst hx
      exact le_trans h1 (min_le_right a x)
    · exact h2 x hx

/-- A maximum fold is an upper bound of its accumulator and of every element. -/
theorem le_foldl_max (xs : List ℚ) (a : ℚ) :
    a ≤ xs.foldl max a ∧ ∀ x ∈ xs, x ≤ xs.foldl max a := by
  induction xs generalizing a with
  | nil => exact ⟨le_refl a, by simp⟩
  | cons y ys ih =>
    obtain ⟨h1, h2⟩ := ih (max a y)
    refine ⟨le_trans (le_max_left a y) h1, ?_⟩
    intro x hx
    rcases List.mem_cons.mp hx with hx | hx
    · subst hx
      exact le_trans (le_max_right a x) h1
    · exact h2 x hx

/-- The column minimum bounds every element from below. -/
theorem qMin_le {xs : List ℚ} {x : ℚ} (hx : x ∈ xs) : qMin xs ≤ x := by
  cases xs with
  | nil => cases hx
  | cons y ys =>
    rcases List.mem_cons.mp hx with h | h
    · subst h
      exact (foldl_min_le ys x).1
    · exact (foldl_min_le ys y).2 x h

/-- The column maximum bounds every element from above. -/
theorem le_qMax {xs : List ℚ} {x : ℚ} (hx : x ∈ xs) : x ≤ qMax xs := by
  cases xs with
  | nil => cases hx
  | cons y ys =>
    rcases List.mem_cons.mp hx with h | h
    · subst h
      exact (le_foldl_max ys x).1
    · exact (le_foldl_max ys y).2 x h

/-- The sum of a constant column. -/
theorem sum_of_const {xs : List ℚ} {c : ℚ} (h : ∀ x ∈ xs, x = c) :
    xs.sum = (xs.length : ℚ) * c := by
  induction xs with
  | nil => simp
  | cons y ys ih =>
    have hy : y = c := h y (List.mem_cons_self y ys)
    have hs : ys.sum = (ys.length : ℚ) * c := ih (fun x hx => h x (List.mem_cons_of_mem y hx))
    simp [hy, hs]
    push_cast
    ring

/-- The mean of a constant nonempty column is that constant. -/
theorem qMean_const {xs : List ℚ} {c : ℚ} (h : ∀ x ∈ xs, x = c) (hne : xs ≠ []) :
    qMean xs = c := by
  unfold qMean
  rw [sum_of_const h]
  have hl : (xs.length : ℚ) ≠ 0 := by
    have : xs.length ≠ 0 := fun h0 => hne (List.eq_nil_of_length_eq_zero h0)
    exact_mod_cast this
  field_simp

/-- The variance of a column all of whose entries equal its mean is zero. -/
theorem qVar_of_all_mean {xs : List ℚ} (h : ∀ x ∈ xs, x = qMean xs) : qVar xs = 0 := by
  unfold qVar
  have hz : ∀ y ∈ xs.map (fun x => (x - qMean xs) ^ 2), y = 0 := by
    intro y hy
    obtain ⟨x, hx, hxy⟩ := List.mem_map.mp hy
    rw [← hxy, h x hx]
    ring
  rw [List.sum_eq_zero hz, zero_div]

/-- If the standard deviation of a column is nonzero, the column is not
constant: its maximum exceeds its minimum. -/
theorem spread_ne_of_std_ne {xs : List ℚ} (h : npStdQ xs ≠ 0) :
    qMax xs - qMin xs ≠ 0 := by
  intro hmm
  apply h
  cases xs with
  | nil =>
    show ratSqrt (qVar []) = 0
    have : qVar [] = 0 := by
      unfold qVar
      simp
    rw [this, ratSqrt_zero]
  | cons y ys =>
    have hconst : ∀ x ∈ y :: ys, x = qMin (y :: ys) := by
      intro x hx
      have h1 := qMin_le hx
      have h2 := le_qMax hx
      linarith
    have hmean : qMean (y :: ys) = qMin (y :: ys) := qMean_const hconst (by simp)
    have hvar : qVar (y :: ys) = 0 := by
      apply qVar_of_all_mean
      intro x hx
      rw [hmean]
      exact hconst x hx
    show ratSqrt (qVar (y :: ys)) = 0
    rw [hvar, ratSqrt_zero]

/-- The standard deviation of a one-record column is zero (the NaN source for
every batch of size 1). -/
theorem npStdQ_singleton (x : ℚ) : npStdQ [x] = 0 := by
  have hm : qMean [x] = x := by
    unfold qMean
    simp
  have hv : qVar [x] = 0 := by
    unfold qVar
    rw [hm]
    simp
  show ratSqrt (qVar [x]) = 0
  rw [hv, ratSqrt_zero]

/-! Access lemmas for the assembled frame and the entry point. -/

/-- Indexing a mapped range. -/
theorem get_range_map {α : Type} (f : ℕ → α) {n i : ℕ} (h : i < n) :
    ((List.range n).map f).get? i = some (f i) := by
  rw [List.get?_map, List.get?_range h]
  rfl

/-- A successful generation run implies a positive requested count, a seed in
NumPy's accepted range, and that the result is the assembled frame. -/
theorem generate_ok_elim {n seed : ℤ} {df : DataFrame}
    (h : generate_para_athlete_data n seed = .ok df) :
    1 ≤ n ∧ (0 ≤ seed ∧ seed < 4294967296) ∧ df = buildFrame seed n.toNat := by
  unfold generate_para_athlete_data at h
  split_ifs at h with h1 h2 h3
  all_goals try exact Except.noConfusion h
  push_neg at h1
  have hdf : df = buildFrame seed n.toNat := (Except.ok.injEq _ _).mp h.symm
  exact ⟨by omega, ⟨h1.1, h1.2⟩, hdf⟩

/-- Column lookup: `age`. -/
theorem lookup_age (seed : ℤ) (n : ℕ) :
    (buildFrame seed n).lookup "age" =
      some (Col.ints ((List.range n).map (age seed n))) := rfl

/-- Column lookup: `sleep_hours`. -/
theorem lookup_sleep_hours (seed : ℤ) (n : ℕ) :
    (buildFrame seed n).lookup "sleep_hours" =
      some (Col.floats ((List.range n).map (fun i => some (sleep_hours seed n i)))) := rfl

/-- Column lookup: `heart_rate_rest`. -/
theorem lookup_heart_rate_rest (seed : ℤ) (n : ℕ) :
    (buildFrame seed n).lookup "heart_rate_rest" =
      some (Col.floats ((List.range n).map (heart_rate_rest seed n))) := rfl

/-- Column lookup: `daily_calorie_intake`. -/
theorem lookup_daily_calorie_intake (seed : ℤ) (n : ℕ) :
    (buildFrame seed n).lookup "daily_calorie_intake" =
      some (Col.floats ((List.range n).map (fun i => some (daily_calorie_intake seed n i)))) := rfl

/-- Column lookup: `hydration_level`. -/
theorem lookup_hydration_level (seed : ℤ) (n : ℕ) :
    (buildFrame seed n).lookup "hydration_level" =
      some (Col.floats ((List.range n).map (fun i => some (hydration_level seed n i)))) := rfl

/-- Column lookup: `fatigue_level`. -/
theorem lookup_fatigue_level (seed : ℤ) (n : ℕ) :
    (buildFrame seed n).lookup "fatigue_level" =
      some (Col.floats ((List.range n).map (fatigue_level seed n))) := rfl

/-- Column lookup: `stamina_level`. -/
theorem lookup_stamina_level (seed : ℤ) (n : ℕ) :
    (buildFrame seed n).lookup "stamina_level" =
      some (Col.floats ((List.range n).map (stamina_level seed n))) := rfl

/-- Column lookup: `performance_score`. -/
theorem lookup_performance_score (seed : ℤ) (n : ℕ) :
    (buildFrame seed n).lookup "performance_score" =
      some (Col.floats ((List.range n).map (performance_score seed n))) := rfl

/-- Column lookup: `injury_risk_score`. -/
theorem lookup_injury_risk_score (seed : ℤ) (n : ℕ) :
    (buildFrame seed n).lookup "injury_risk_score" =
      some (Col.floats ((List.range n).map (injury_risk_score seed n))) := rfl

/-- Column lookup: `overtraining_alert`. -/
theorem lookup_overtraining_alert (seed : ℤ) (n : ℕ) :
    (buildFrame seed n).lookup "overtraining_alert" =
      some (Col.ints ((List.range n).map (overtraining_alert seed n))) := rfl

/-- Establishes a float-column membership check from its components. -/
theorem floatColMemB_true {df : DataFrame} {name : String} {i : ℕ} {lo hi : ℚ}
    {xs : List NpF} {q : ℚ} (h1 : df.lookup name = some (Col.floats xs))
    (h2 : xs.get? i = some (some q)) (h3 : lo ≤ q) (h4 : q ≤ hi) :
    floatColMemB df name i lo hi = true := by
  unfold floatColMemB
  rw [h1]
  show (match xs.get? i with
    | some (some q) => decide (lo ≤ q) && decide (q ≤ hi)
    | _ => false) = true
  rw [h2]
  show (decide (lo ≤ q) && decide (q ≤ hi)) = true
  rw [decide_eq_true h3, decide_eq_true h4]
  rfl

/-- A NaN cell fails the float-column membership check. -/
theorem floatColMemB_nan {df : DataFrame} {name : String} {i : ℕ} (lo hi : ℚ)
    {xs : List NpF} (h1 : df.lookup name = some (Col.floats xs))
    (h2 : xs.get? i = some none) : floatColMemB df name i lo hi = false := by
  unfold floatColMemB
  rw [h1]
  show (match xs.get? i with
    | some (some q) => decide (lo ≤ q) && decide (q ≤ hi)
    | _ => false) = false
  rw [h2]

/-- Establishes an integer-column membership check from its components. -/
theorem intColMemB_true {df : DataFrame} {name : String} {i : ℕ} {lo hi : ℤ}
    {xs : List ℤ} {z : ℤ} (h1 : df.lookup name = some (Col.ints xs))
    (h2 : xs.get? i = some z) (h3 : lo ≤ z) (h4 : z ≤ hi) :
    intColMemB df name i lo hi = true := by
  unfold intColMemB cellI
  rw [h1]
  show (match xs.get? i with
    | some z => decide (lo ≤ z) && decide (z ≤ hi)
    | none => false) = true
  rw [h2]
  show (decide (lo ≤ z) && decide (z ≤ hi)) = true
  rw [decide_eq_true h3, decide_eq_true h4]
  rfl

/-! Per-column range facts. -/

/-- Clip-then-round with rational-literal bounds that denote integers. -/
theorem npRoundClipLit_mem (d : ℕ) {v : NpF} {q : ℚ} (hv : v = some q) (lo hi : ℚ)
    (z₁ z₂ : ℤ) (hlo : lo = (z₁ : ℚ)) (hhi : hi = (z₂ : ℚ)) (h : lo ≤ hi) :
    ∃ r, npRound d (npClip v lo hi) = some r ∧ lo ≤ r ∧ r ≤ hi := by
  subst hlo hhi
  exact npRoundClip_mem d hv h

/-- Pure clip-then-round with rational-literal bounds that denote integers. -/
theorem clipRoundLit_mem (d : ℕ) (x : ℚ) (lo hi : ℚ) (z₁ z₂ : ℤ)
    (hlo : lo = (z₁ : ℚ)) (hhi : hi = (z₂ : ℚ)) (h : lo ≤ hi) :
    lo ≤ roundTo d (clipQ x lo hi) ∧ roundTo d (clipQ x lo hi) ≤ hi := by
  subst hlo hhi
  exact clipRound_mem d x h

/-- Every generated age lies in `[16, 50]`. -/
theorem age_mem (seed : ℤ) (n i : ℕ) : 16 ≤ age seed n i ∧ age seed n i ≤ 50 := by
  unfold age
  obtain ⟨h1, h2⟩ := clipQ_mem (x := normalD 27 6 (U seed (0 * n + i)))
    (show (16 : ℚ) ≤ 50 by norm_num)
  exact roundHalfEven_mem (by exact_mod_cast h1) (by exact_mod_cast h2)

/-- Every generated sleep duration lies in `[4, 9]`. -/
theorem sleep_hours_mem (seed : ℤ) (n i : ℕ) :
    (4 : ℚ) ≤ sleep_hours seed n i ∧ sleep_hours seed n i ≤ 9 := by
  unfold sleep_hours
  exact clipRoundLit_mem 1 _ 4 9 4 9 (by norm_num) (by norm_num) (by norm_num)

/-- Every generated calorie intake lies in `[1500, 4000]`. -/
theorem daily_calorie_intake_mem (seed : ℤ) (n i : ℕ) :
    (1500 : ℚ) ≤ daily_calorie_intake seed n i ∧ daily_calorie_intake seed n i ≤ 4000 := by
  unfold daily_calorie_intake
  exact clipRoundLit_mem 0 _ 1500 4000 1500 4000 (by norm_num) (by norm_num) (by norm_num)

/-- Every generated hydration level lies in `[30, 100]`. -/
theorem hydration_level_mem (seed : ℤ) (n i : ℕ) :
    (30 : ℚ) ≤ hydration_level seed n i ∧ hydration_level seed n i ≤ 100 := by
  unfold hydration_level
  exact clipRoundLit_mem 0 _ 30 100 30 100 (by norm_num) (by norm_num) (by norm_num)

/-- With a nonzero load standard deviation, the fitness factor is NaN-free. -/
theorem fitness_factor_some {seed : ℤ} {n : ℕ} (i : ℕ)
    (h : npStdQ (weekly_training_load_col seed n) ≠ 0) :
    fitness_factor seed n i =
      some ((weekly_training_load seed n i - qMean (weekly_training_load_col seed n)) /
        npStdQ (weekly_training_load_col seed n)) := by
  unfold fitness_factor
  exact npDiv_some h

/-- With a nonzero load standard deviation, every resting heart rate is a
real value in `[45, 90]`. -/
theorem heart_rate_rest_spec {seed : ℤ} {n : ℕ} (i : ℕ)
    (h : npStdQ (weekly_training_load_col seed n) ≠ 0) :
    ∃ r, heart_rate_rest seed n i = some r ∧ (45 : ℚ) ≤ r ∧ r ≤ 90 := by
  unfold heart_rate_rest
  rw [fitness_factor_some i h, npMul_some, npSub_some, npAdd_some]
  exact npRoundClipLit_mem 0 rfl 45 90 45 90 (by norm_num) (by norm_num) (by norm_num)

/-- With a nonzero load standard deviation, the raw fatigue value is a real
number. -/
theorem fatigue_raw_some {seed : ℤ} {n : ℕ} (i : ℕ)
    (h : npStdQ (weekly_training_load_col seed n) ≠ 0) :
    ∃ v, fatigue_raw seed n i = some v := by
  have hsp := spread_ne_of_std_ne h
  unfold fatigue_raw
  rw [npDiv_some hsp, npMul_some, npSub_some, npAdd_some]
  exact ⟨_, rfl⟩

/-- With a nonzero load standard deviation, every fatigue level is a real
value in `[0, 10]`. -/
theorem fatigue_level_spec {seed : ℤ} {n : ℕ} (i : ℕ)
    (h : npStdQ (weekly_training_load_col seed n) ≠ 0) :
    ∃ q, fatigue_level seed n i = some q ∧ (0 : ℚ) ≤ q ∧ q ≤ 10 := by
  obtain ⟨v, hv⟩ := fatigue_raw_some i h
  unfold fatigue_level
  exact npRoundClipLit_mem 1 hv 0 10 0 10 (by norm_num) (by norm_num) (by norm_num)

/-- A real fatigue level makes the soreness level a real value in `[0, 10]`. -/
theorem muscle_soreness_spec {seed : ℤ} {n i : ℕ} {f : ℚ}
    (hf : fatigue_level seed n i = some f) :
    ∃ q, muscle_soreness_level seed n i = some q ∧ (0 : ℚ) ≤ q ∧ q ≤ 10 := by
  unfold muscle_soreness_level muscle_soreness_raw
  rw [hf, npMul_some, npAdd_some, npAdd_some]
  exact npRoundClipLit_mem 1 rfl 0 10 0 10 (by norm_num) (by norm_num) (by norm_num)

/-- A real fatigue level makes the mood score a real value in `[0, 10]`. -/
theorem mood_score_spec {seed : ℤ} {n i : ℕ} {f : ℚ}
    (hf : fatigue_level seed n i = some f) :
    ∃ q, mood_score seed n i = some q ∧ (0 : ℚ) ≤ q ∧ q ≤ 10 := by
  unfold mood_score
  rw [hf, npMul_some, npSub_some, npAdd_some, npAdd_some]
  exact npRoundClipLit_mem 1 rfl 0 10 0 10 (by norm_num) (by norm_num) (by norm_num)

/-- A real fatigue level makes the stress level a real value in `[0, 10]`. -/
theorem stress_level_spec {seed : ℤ} {n i : ℕ} {f : ℚ}
    (hf : fatigue_level seed n i = some f) :
    ∃ q, stress_level seed n i = some q ∧ (0 : ℚ) ≤ q ∧ q ≤ 10 := by
  unfold stress_level
  rw [hf, npMul_some, npAdd_some, npSub_some, npAdd_some]
  exact npRoundClipLit_mem 1 rfl 0 10 0 10 (by norm_num) (by norm_num) (by norm_num)

/-- A real fatigue level makes the stamina level a real value in `[0, 100]`. -/
theorem stamina_level_spec {seed : ℤ} {n i : ℕ} {f : ℚ}
    (hf : fatigue_level seed n i = some f) :
    ∃ q, stamina_level seed n i = some q ∧ (0 : ℚ) ≤ q ∧ q ≤ 100 := by
  unfold stamina_level stamina_raw
  rw [hf, npSub_some, npMul_some, npSub_some, npAdd_some]
  exact npRoundClipLit_mem 1 rfl 0 100 0 100 (by norm_num) (by norm_num) (by norm_num)

/-- Real fatigue, stamina and mood make the performance score a real value
in `[0, 100]`. -/
theorem performance_score_spec {seed : ℤ} {n i : ℕ} {f s m : ℚ}
    (hf : fatigue_level seed n i = some f)
    (hs : stamina_level seed n i = some s)
    (hm : mood_score seed n i = some m) :
    ∃ q, performance_score seed n i = some q ∧ (0 : ℚ) ≤ q ∧ q ≤ 100 := by
  unfold performance_score performance_raw
  rw [hf, hs, hm, npMul_some, npMul_some, npMul_some, npAdd_some, npSub_some, npAdd_some,
    npDiv_some (by norm_num : (1.2 : ℚ) ≠ 0)]
  exact npRoundClipLit_mem 1 rfl 0 100 0 100 (by norm_num) (by norm_num) (by norm_num)

/-- Real fatigue, soreness and stress make the injury risk a real value in
`[0, 1]`. -/
theorem injury_risk_score_spec {seed : ℤ} {n i : ℕ} {f so st : ℚ}
    (hf : fatigue_level seed n i = some f)
    (hso : muscle_soreness_level seed n i = some so)
    (hst : stress_level seed n i = some st) :
    ∃ q, injury_risk_score seed n i = some q ∧ (0 : ℚ) ≤ q ∧ q ≤ 1 := by
  unfold injury_risk_score injury_risk_score_raw
  rw [hf, hso, hst, npMul_some, npMul_some, npMul_some, npAdd_some, npAdd_some, npSub_some,
    npAdd_some]
  exact npRoundClipLit_mem 2 rfl 0 1 0 1 (by norm_num) (by norm_num) (by norm_num)

/-- Every overtraining alert is 0 or 1. -/
theorem overtraining_alert_mem (seed : ℤ) (n i : ℕ) :
    0 ≤ overtraining_alert seed n i ∧ overtraining_alert seed n i ≤ 1 := by
  unfold overtraining_alert
  split
  · exact ⟨by norm_num, by norm_num⟩
  · exact ⟨by norm_num, by norm_num⟩

/-- The pure arithmetic core of the heart-rate chain: a clipped, rounded
resting rate in `[45, 90]`, an average offset in `[30, 60)` and a maximum
offset in `[10, 30)` give strictly increasing clipped-and-rounded average and
maximum rates. -/
theorem hr_chain {r u1 u2 : ℚ} (hr1 : 45 ≤ r) (hr2 : r ≤ 90)
    (h1a : 30 ≤ u1) (h1b : u1 < 60) (h2a : 10 ≤ u2) (h2b : u2 < 30) :
    r < roundTo 0 (clipQ (r + u1) 90 180) ∧
    roundTo 0 (clipQ (r + u1) 90 180) < roundTo 0 (clipQ (r + u1 + u2) 120 210) := by
  have h90 : roundTo 0 ((90 : ℚ)) = 90 := by
    rw [roundTo_zero, show ((90 : ℚ)) = ((90 : ℤ) : ℚ) by norm_num, roundHalfEven_intCast]
  have h120 : roundTo 0 ((120 : ℚ)) = 120 := by
    rw [roundTo_zero, show ((120 : ℚ)) = ((120 : ℤ) : ℚ) by norm_num, roundHalfEven_intCast]
  rcases lt_or_le (r + u1) 90 with hA | hA
  · have hAeq : clipQ (r + u1) 90 180 = 90 := by
      unfold clipQ
      rw [max_eq_right (le_of_lt hA), min_eq_left (by norm_num)]
    have hBlt : r + u1 + u2 < 120 := by linarith
    have hBeq : clipQ (r + u1 + u2) 120 210 = 120 := by
      unfold clipQ
      rw [max_eq_right (le_of_lt hBlt), min_eq_left (by norm_num)]
    rw [hAeq, hBeq, h90, h120]
    constructor
    · linarith
    · norm_num
  · have hAeq : clipQ (r + u1) 90 180 = r + u1 := clipQ_of_mem hA (by linarith)
    have hrnd := roundHalfEven_bounds (r + u1)
    rcases lt_or_le (r + u1 + u2) 120 with hB | hB
    · have hBeq : clipQ (r + u1 + u2) 120 210 = 120 := by
        unfold clipQ
        rw [max_eq_right (le_of_lt hB), min_eq_left (by norm_num)]
      rw [hAeq, hBeq, h120, roundTo_zero]
      constructor
      · linarith [hrnd.1]
      · linarith [hrnd.2]
    · have hBeq : clipQ (r + u1 + u2) 120 210 = r + u1 + u2 := clipQ_of_mem hB (by linarith)
      have hrnd2 := roundHalfEven_bounds (r + u1 + u2)
      rw [hAeq, hBeq, roundTo_zero, roundTo_zero]
      constructor
      · linarith [hrnd.1]
      · linarith [hrnd.2, hrnd2.1]

/-- Concrete evaluation: the weekly training load column of the batch
`seed = 42`, `n = 2` under the modelled stream is `[59, 80.6]`, hence its
standard deviation is nonzero.  (Used to instantiate the hypotheses of the
range and heart-rate theorems at a concrete batch.) -/
theorem std_load_42_2 : npStdQ (weekly_training_load_col 42 2) ≠ 0 := by
  have hu8 : U 42 (4 * 2 + 0) = 1314989459 / 2147483648 := by
    show ((lcgIter 9 (42 : ℤ).toNat : ℕ) : ℚ) / 2147483648 = 1314989459 / 2147483648
    norm_num [show lcgIter 9 (42 : ℤ).toNat = 1314989459 from rfl]
  have hu9 : U 42 (4 * 2 + 1) = 1535244752 / 2147483648 := by
    show ((lcgIter 10 (42 : ℤ).toNat : ℕ) : ℚ) / 2147483648 = 1535244752 / 2147483648
    norm_num [show lcgIter 10 (42 : ℤ).toNat = 1535244752 from rfl]
  have hu10 : U 42 (5 * 2 + 0) = 391441865 / 2147483648 := by
    show ((lcgIter 11 (42 : ℤ).toNat : ℕ) : ℚ) / 2147483648 = 391441865 / 2147483648
    norm_num [show lcgIter 11 (42 : ℤ).toNat = 391441865 from rfl]
  have hu11 : U 42 (5 * 2 + 1) = 1108520142 / 2147483648 := by
    show ((lcgIter 12 (42 : ℤ).toNat : ℕ) : ℚ) / 2147483648 = 1108520142 / 2147483648
    norm_num [show lcgIter 12 (42 : ℤ).toNat = 1108520142 from rfl]
  have hu12 : U 42 (6 * 2 + 0) = 1206814703 / 2147483648 := by
    show ((lcgIter 13 (42 : ℤ).toNat : ℕ) : ℚ) / 2147483648 = 1206814703 / 2147483648
    norm_num [show lcgIter 13 (42 : ℤ).toNat = 1206814703 from rfl]
  have hu13 : U 42 (6 * 2 + 1) = 534045436 / 2147483648 := by
    show ((lcgIter 14 (42 : ℤ).toNat : ℕ) : ℚ) / 2147483648 = 534045436 / 2147483648
    norm_num [show lcgIter 14 (42 : ℤ).toNat = 534045436 from rfl]
  have hh0 : training_hours_per_day 42 2 0 = 59 / 20 := by
    unfold training_hours_per_day
    rw [hu8, roundTo_eval 2 (uniformD 0.5 4.5 (1314989459 / 2147483648)) 295
      (by unfold uniformD; norm_num) (by unfold uniformD; norm_num)]
    norm_num
  have hh1 : training_hours_per_day 42 2 1 = 84 / 25 := by
    unfold training_hours_per_day
    rw [hu9, roundTo_eval 2 (uniformD 0.5 4.5 (1535244752 / 2147483648)) 336
      (by unfold uniformD; norm_num) (by unfold uniformD; norm_num)]
    norm_num
  have hr0 : rpe_score 42 2 0 = 4 := by
    have hfl : ⌊(391441865 / 2147483648 : ℚ) * (10 - 3)⌋ = 1 :=
      Int.floor_eq_iff.mpr ⟨by norm_num, by norm_num⟩
    unfold rpe_score randintD
    rw [hu10]
    push_cast
    rw [hfl]
    norm_num
  have hr1 : rpe_score 42 2 1 = 6 := by
    have hfl : ⌊(1108520142 / 2147483648 : ℚ) * (10 - 3)⌋ = 3 :=
      Int.floor_eq_iff.mpr ⟨by norm_num, by norm_num⟩
    unfold rpe_score randintD
    rw [hu11]
    push_cast
    rw [hfl]
    norm_num
  have hd0 : training_days_per_week 42 2 0 = 5 := by
    have hfl : ⌊(1206814703 / 2147483648 : ℚ) * (8 - 3)⌋ = 2 :=
      Int.floor_eq_iff.mpr ⟨by norm_num, by norm_num⟩
    unfold training_days_per_week randintD
    rw [hu12]
    push_cast
    rw [hfl]
    norm_num
  have hd1 : training_days_per_week 42 2 1 = 4 := by
    have hfl : ⌊(534045436 / 2147483648 : ℚ) * (8 - 3)⌋ = 1 :=
      Int.floor_eq_iff.mpr ⟨by norm_num, by norm_num⟩
    unfold training_days_per_week randintD
    rw [hu13]
    push_cast
    rw [hfl]
    norm_num
  have hw0 : weekly_training_load 42 2 0 = 59 := by
    unfold weekly_training_load
    rw [hh0, hr0, hd0]
    rw [roundTo_eval 1 (59 / 20 * ((4 : ℤ) : ℚ) * ((5 : ℤ) : ℚ)) 590
      (by push_cast; norm_num) (by push_cast; norm_num)]
    norm_num
  have hw1 : weekly_training_load 42 2 1 = 403 / 5 := by
    unfold weekly_training_load
    rw [hh1, hr1, hd1]
    rw [roundTo_eval 1 (84 / 25 * ((6 : ℤ) : ℚ) * ((4 : ℤ) : ℚ)) 806
      (by push_cast; norm_num) (by push_cast; norm_num)]
    norm_num
  have hcol : weekly_training_load_col 42 2 = [59, 403 / 5] := by
    unfold weekly_training_load_col
    rw [show List.range 2 = [0, 1] from rfl]
    rw [List.map_cons, List.map_cons, List.map_nil, hw0, hw1]
  have hvar : qVar [(59 : ℚ), 403 / 5] = 2916 / 25 := by
    unfold qVar qMean
    simp only [List.sum_cons, List.sum_nil, List.map_cons, List.map_nil, List.length_cons,
      List.length_nil]
    norm_num
  have hstd : npStdQ [(59 : ℚ), 403 / 5] = 54 / 5 := by
    unfold npStdQ ratSqrt
    rw [hvar]
    rw [show ⌊(2916 / 25 : ℚ) * 10 ^ 12⌋ = 116640000000000 from
      Int.floor_eq_iff.mpr ⟨by norm_num, by norm_num⟩]
    rw [show ((116640000000000 : ℤ)).toNat = 116640000000000 from rfl]
    rw [show Nat.sqrt 116640000000000 = 10800000 by norm_num]
    norm_num
  rw [hcol, hstd]
  norm_num

/-! The claims. -/

/-- Claim C1: for every sample_count and every seed, two calls of the
generation entry point with the same `(sample_count, seed)` pair produce
identical datasets — equality of the assembled frames, which is equality
value for value in every column and row.  The embedding threads the seeded
global NumPy stream explicitly, so a run's output is a function of
`(n_samples, random_state)` alone. -/
theorem claim_determinism (n seed : ℤ) (df1 df2 : DataFrame)
    (h1 : generate_para_athlete_data n seed = .ok df1)
    (h2 : generate_para_athlete_data n seed = .ok df2) : df1 = df2 := by
  rw [h1] at h2
  exact (Except.ok.injEq _ _).mp h2

/-- Witness for C1 at `sample_count = 2`, `seed = 42`. -/
theorem claim_determinism_witness : buildFrame 42 2 = buildFrame 42 2 :=
  claim_determinism 2 42 (buildFrame 42 2) (buildFrame 42 2) rfl rfl

/-- Claim C2, amended: on every successful run whose `weekly_training_load`
column has nonzero standard deviation, every record satisfies the declared
ranges: age ∈ [16,50], sleep_hours ∈ [4,9], heart_rate_rest ∈ [45,90],
daily_calorie_intake ∈ [1500,4000], hydration_level ∈ [30,100],
fatigue_level ∈ [0,10], stamina_level ∈ [0,100], performance_score ∈ [0,100],
injury_risk_score ∈ [0,1] and overtraining_alert ∈ {0,1}.  (The claim's
"including sample_count = 1" fails: a constant load column — always the case
for one record — makes the deviation zero, `0/0` produces NaN, and NaN
propagates into heart_rate_rest, fatigue_level and their dependents; see the
counterexample.) -/
theorem claim_range_invariants (n seed : ℤ) (df : DataFrame) (i : ℕ)
    (h : generate_para_athlete_data n seed = .ok df)
    (hstd : npStdQ (weekly_training_load_col seed n.toNat) ≠ 0)
    (hi : i < n.toNat) :
    intColMemB df "age" i 16 50 = true ∧
    floatColMemB df "sleep_hours" i 4 9 = true ∧
    floatColMemB df "heart_rate_rest" i 45 90 = true ∧
    floatColMemB df "daily_calorie_intake" i 1500 4000 = true ∧
    floatColMemB df "hydration_level" i 30 100 = true ∧
    floatColMemB df "fatigue_level" i 0 10 = true ∧
    floatColMemB df "stamina_level" i 0 100 = true ∧
    floatColMemB df "performance_score" i 0 100 = true ∧
    floatColMemB df "injury_risk_score" i 0 1 = true ∧
    intColMemB df "overtraining_alert" i 0 1 = true := by
  obtain ⟨hn, hs, hdf⟩ := generate_ok_elim h
  subst hdf
  obtain ⟨f, hf, hf0, hf10⟩ := fatigue_level_spec i hstd
  obtain ⟨r, hr, hr45, hr90⟩ := heart_rate_rest_spec i hstd
  obtain ⟨sl, hsl, hsl0, hsl100⟩ := stamina_level_spec hf
  obtain ⟨mo, hmo, hmo0, hmo10⟩ := mood_score_spec hf
  obtain ⟨so, hso, hso0, hso10⟩ := muscle_soreness_spec hf
  obtain ⟨st, hst, hst0, hst10⟩ := stress_level_spec hf
  obtain ⟨p, hp, hp0, hp100⟩ := performance_score_spec hf hsl hmo
  obtain ⟨ir, hir, hir0, hir1⟩ := injury_risk_score_spec hf hso hst
  refine ⟨?_, ?_, ?_, ?_, ?_, ?_, ?_, ?_, ?_, ?_⟩
  · exact intColMemB_true (lookup_age seed n.toNat) (get_range_map _ hi)
      (age_mem seed n.toNat i).1 (age_mem seed n.toNat i).2
  · exact floatColMemB_true (lookup_sleep_hours seed n.toNat) (get_range_map _ hi)
      (sleep_hours_mem seed n.toNat i).1 (sleep_hours_mem seed n.toNat i).2
  · exact floatColMemB_true (lookup_heart_rate_rest seed n.toNat)
      (by rw [get_range_map _ hi, hr]) hr45 hr90
  · exact floatColMemB_true (lookup_daily_calorie_intake seed n.toNat) (get_range_map _ hi)
      (daily_calorie_intake_mem seed n.toNat i).1 (daily_calorie_intake_mem seed n.toNat i).2
  · exact floatColMemB_true (lookup_hydration_level seed n.toNat) (get_range_map _ hi)
      (hydration_level_mem seed n.toNat i).1 (hydration_level_mem seed n.toNat i).2
  · exact floatColMemB_true (lookup_fatigue_level seed n.toNat)
      (by rw [get_range_map _ hi, hf]) hf0 hf10
  · exact floatColMemB_true (lookup_stamina_level seed n.toNat)
      (by rw [get_range_map _ hi, hsl]) hsl0 hsl100
  · exact floatColMemB_true (lookup_performance_score seed n.toNat)
      (by rw [get_range_map _ hi, hp]) hp0 hp100
  · exact floatColMemB_true (lookup_injury_risk_score seed n.toNat)
      (by rw [get_range_map _ hi, hir]) hir0 hir1
  · exact intColMemB_true (lookup_overtraining_alert seed n.toNat) (get_range_map _ hi)
      (overtraining_alert_mem seed n.toNat i).1 (overtraining_alert_mem seed n.toNat i).2

/-- Counterexample to C2 as stated: at `sample_count = 1`, `seed = 42` the
run succeeds, but record 0's `heart_rate_rest` is NaN (the load column is a
singleton, its standard deviation is 0, and `0/0` is NaN), hence not in
`[45, 90]`. -/
theorem claim_range_invariants_cex :
    generate_para_athlete_data 1 42 = .ok (buildFrame 42 1) ∧
    floatColMemB (buildFrame 42 1) "heart_rate_rest" 0 45 90 = false := by
  refine ⟨rfl, ?_⟩
  have hstd : npStdQ (weekly_training_load_col 42 1) = 0 := by
    unfold weekly_training_load_col
    rw [show List.range 1 = [0] from rfl, List.map_cons, List.map_nil]
    exact npStdQ_singleton _
  have hnan : heart_rate_rest 42 1 0 = none := by
    unfold heart_rate_rest fitness_factor
    rw [hstd, npDiv_zero]
    rfl
  exact floatColMemB_nan 45 90 (lookup_heart_rate_rest 42 1)
    (by rw [get_range_map _ (by norm_num), hnan])

/-- Witness for the amended C2 at `sample_count = 2`, `seed = 42`,
record 0. -/
theorem claim_range_invariants_witness :
    intColMemB (buildFrame 42 2) "age" 0 16 50 = true ∧
    floatColMemB (buildFrame 42 2) "sleep_hours" 0 4 9 = true ∧
    floatColMemB (buildFrame 42 2) "heart_rate_rest" 0 45 90 = true ∧
    floatColMemB (buildFrame 42 2) "daily_calorie_intake" 0 1500 4000 = true ∧
    floatColMemB (buildFrame 42 2) "hydration_level" 0 30 100 = true ∧
    floatColMemB (buildFrame 42 2) "fatigue_level" 0 0 10 = true ∧
    floatColMemB (buildFrame 42 2) "stamina_level" 0 0 100 = true ∧
    floatColMemB (buildFrame 42 2) "performance_score" 0 0 100 = true ∧
    floatColMemB (buildFrame 42 2) "injury_risk_score" 0 0 1 = true ∧
    intColMemB (buildFrame 42 2) "overtraining_alert" 0 0 1 = true :=
  claim_range_invariants 2 42 (buildFrame 42 2) 0 rfl std_load_42_2 (by decide)

/-- Claim C3: on every successful run the assembled frame has 16 columns and
every column holds exactly `sample_count` cells — clipping truncates values
and never drops a record — and the requested count is recovered exactly
(`n.toNat = n`, possible since a successful run forces `n ≥ 1`). -/
theorem claim_row_count (n seed : ℤ) (df : DataFrame)
    (h : generate_para_athlete_data n seed = .ok df) :
    colLens df = [n.toNat, n.toNat, n.toNat, n.toNat, n.toNat, n.toNat, n.toNat, n.toNat,
      n.toNat, n.toNat, n.toNat, n.toNat, n.toNat, n.toNat, n.toNat, n.toNat] ∧
    (n.toNat : ℤ) = n := by
  obtain ⟨hn, _, hdf⟩ := generate_ok_elim h
  subst hdf
  constructor
  · simp [colLens, buildFrame, colLen, List.length_map, List.length_range]
  · omega

/-- Witness for C3 at `sample_count = 2`, `seed = 42`. -/
theorem claim_row_count_witness :
    colLens (buildFrame 42 2) = [2, 2, 2, 2, 2, 2, 2, 2, 2, 2, 2, 2, 2, 2, 2, 2] ∧
    ((2 : ℤ).toNat : ℤ) = 2 :=
  claim_row_count 2 42 (buildFrame 42 2) rfl

/-- Claim C4: in every successful run, every record's `overtraining_alert`
equals 1 exactly when its fatigue_level is ≥ 7 (false for NaN, as in NumPy)
and its weekly_training_load strictly exceeds the 70th percentile of the
whole batch's weekly_training_load column, else 0. -/
theorem claim_overtraining_formula (n seed : ℤ) (df : DataFrame) (i : ℕ)
    (h : generate_para_athlete_data n seed = .ok df) (hi : i < n.toNat) :
    cellI df "overtraining_alert" i =
      some (if npGeB (fatigue_level seed n.toNat i) 7 &&
          decide (weekly_training_load seed n.toNat i >
            percentile70 (weekly_training_load_col seed n.toNat)) then 1 else 0) := by
  obtain ⟨_, _, hdf⟩ := generate_ok_elim h
  subst hdf
  unfold cellI
  rw [lookup_overtraining_alert]
  show ((List.range n.toNat).map (overtraining_alert seed n.toNat)).get? i = _
  rw [get_range_map _ hi]
  rfl

/-- Witness for C4 at `sample_count = 1`, `seed = 42`, record 0. -/
theorem claim_overtraining_formula_witness :
    cellI (buildFrame 42 1) "overtraining_alert" 0 =
      some (if npGeB (fatigue_level 42 1 0) 7 &&
          decide (weekly_training_load 42 1 0 >
            percentile70 (weekly_training_load_col 42 1)) then 1 else 0) :=
  claim_overtraining_formula 1 42 (buildFrame 42 1) 0 rfl (by decide)

/-- Claim C5: for every record, `heart_rate_max` is
`clip(heart_rate_avg_raw + uniform(10,30), 120, 210)` (then rounded), where
`heart_rate_avg_raw = heart_rate_rest + uniform(30,60)` is the pre-clip value
of `heart_rate_avg`; the clip of `heart_rate_avg` into `[90,180]` is applied
only to its own column, after the maximum has been derived from the unclipped
intermediate. -/
theorem claim_hr_max_unclipped (seed : ℤ) (n i : ℕ) :
    heart_rate_max seed n i =
      npRound 0 (npClip (npAdd (npAdd (heart_rate_rest seed n i)
        (some (uniformD 30 60 (U seed (10 * n + i)))))
        (some (uniformD 10 30 (U seed (11 * n + i))))) 120 210) ∧
    heart_rate_avg seed n i =
      npRound 0 (npClip (npAdd (heart_rate_rest seed n i)
        (some (uniformD 30 60 (U seed (10 * n + i))))) 90 180) :=
  ⟨rfl, rfl⟩

/-- Claim C6, amended: calling the generation entry point with a non-positive
sample_count fails with a NumPy `ValueError` — raised partway through
generation, not by an up-front validation — and no dataset is produced.  No
`ConfigurationError` type exists anywhere in the source and no code path
raises one; see the counterexample. -/
theorem claim_nonpositive_count_error (n seed : ℤ) (h : n ≤ 0) :
    isValueError (generate_para_athlete_data n seed) = true := by
  unfold generate_para_athlete_data
  split_ifs with h1 h2 h3
  · rfl
  · rfl
  · rfl
  · exact absurd (by omega : n = 0) h3

/-- Counterexample to C6 as stated: at `sample_count = 0` the run does fail,
but with the `ValueError` NumPy raises for the zero-size
`weekly_training_load.min()` reduction, not with a `ConfigurationError`. -/
theorem claim_nonpositive_count_error_cex :
    isConfigurationError (generate_para_athlete_data 0 42) = false ∧
    generate_para_athlete_data 0 42 =
      .error (.valueError
        "zero-size array to reduction operation minimum which has no identity") :=
  ⟨rfl, rfl⟩

/-- Witness for the amended C6 at `sample_count = 0`, `seed = 42`. -/
theorem claim_nonpositive_count_error_witness :
    isValueError (generate_para_athlete_data 0 42) = true :=
  claim_nonpositive_count_error 0 42 (le_refl 0)

/-- Claim C7, amended: `motivation_level` is the clipped-and-rounded value of
`6 + 0.3·[weekly_training_load > batch mean of weekly_training_load]
− 0.2·fatigue_level + fresh noise`: it is a function only of that batch-mean
indicator, the record's fatigue_level and the fresh per-record noise draw.
It therefore reads `weekly_training_load` and a batch-level statistic (the
column mean) — not `rpe_score` or `sleep_quality_score` as claimed; the
counterexample shows the output genuinely varies with the indicator while
fatigue and noise are held fixed. -/
theorem claim_motivation_inputs (seed : ℤ) (n i : ℕ) (seed2 : ℤ) (n2 i2 : ℕ)
    (hind : decide (weekly_training_load seed n i > qMean (weekly_training_load_col seed n)) =
      decide (weekly_training_load seed2 n2 i2 > qMean (weekly_training_load_col seed2 n2)))
    (hfat : fatigue_level seed n i = fatigue_level seed2 n2 i2)
    (hnoise : normalD 0 1 (U seed (24 * n + i)) = normalD 0 1 (U seed2 (24 * n2 + i2))) :
    motivation_level seed n i = motivation_level seed2 n2 i2 ∧
    motivation_level seed n i = motivation_formula
      (decide (weekly_training_load seed n i > qMean (weekly_training_load_col seed n)))
      (fatigue_level seed n i) (normalD 0 1 (U seed (24 * n + i))) := by
  refine ⟨?_, rfl⟩
  unfold motivation_level
  rw [hind, hfat, hnoise]

/-- Witness for the amended C7 at `seed = 42`, `n = 2`, record 0. -/
theorem claim_motivation_inputs_witness :
    motivation_level 42 2 0 = motivation_level 42 2 0 ∧
    motivation_level 42 2 0 = motivation_formula
      (decide (weekly_training_load 42 2 0 > qMean (weekly_training_load_col 42 2)))
      (fatigue_level 42 2 0) (normalD 0 1 (U 42 (24 * 2 + 0))) :=
  claim_motivation_inputs 42 2 0 42 2 0 rfl rfl rfl

/-- Counterexample to C7 as stated: with fatigue_level 5 and noise 0 held
fixed, flipping only the `weekly_training_load > batch mean` indicator
changes motivation_level (5.3 against 5.0), so motivation_level is not a
function of `(fatigue_level, rpe_score, sleep_quality_score, noise)` alone. -/
theorem claim_motivation_inputs_cex :
    motivation_formula true (some 5) 0 ≠ motivation_formula false (some 5) 0 := by
  have c1 : clipQ (6 + 0.3 * 1 - 0.2 * 5 + 0 : ℚ) 0 10 = 6 + 0.3 * 1 - 0.2 * 5 + 0 :=
    clipQ_of_mem (by norm_num) (by norm_num)
  have c2 : clipQ (6 + 0.3 * 0 - 0.2 * 5 + 0 : ℚ) 0 10 = 6 + 0.3 * 0 - 0.2 * 5 + 0 :=
    clipQ_of_mem (by norm_num) (by norm_num)
  have e1 : roundTo 1 ((6 + 0.3 * 1 - 0.2 * 5 + 0 : ℚ)) = 53 / 10 := by
    rw [roundTo_eval 1 (6 + 0.3 * 1 - 0.2 * 5 + 0) 53 (by norm_num) (by norm_num)]
    norm_num
  have e2 : roundTo 1 ((6 + 0.3 * 0 - 0.2 * 5 + 0 : ℚ)) = 5 := by
    rw [roundTo_eval 1 (6 + 0.3 * 0 - 0.2 * 5 + 0) 50 (by norm_num) (by norm_num)]
    norm_num
  have h1 : motivation_formula true (some 5) 0 =
      some (roundTo 1 (clipQ (6 + 0.3 * 1 - 0.2 * 5 + 0) 0 10)) := rfl
  have h2 : motivation_formula false (some 5) 0 =
      some (roundTo 1 (clipQ (6 + 0.3 * 0 - 0.2 * 5 + 0) 0 10)) := rfl
  rw [h1, h2, c1, c2, e1, e2]
  intro hc
  exact absurd (Option.some.inj hc) (by norm_num)

/-- Claim C8: on every successful run the frame has exactly these 16 columns
in this order, and omits every computed intermediate column. -/
theorem claim_output_columns (n seed : ℤ) (df : DataFrame)
    (h : generate_para_athlete_data n seed = .ok df) :
    df.map Prod.fst = ["age", "gender", "disability_type", "sport_type",
      "training_days_per_week", "sleep_hours", "heart_rate_rest",
      "daily_calorie_intake", "protein_intake_g", "water_intake_liters",
      "hydration_level", "fatigue_level", "stamina_level", "performance_score",
      "injury_risk_score", "overtraining_alert"] ∧
    ("athlete_id" ∉ df.map Prod.fst ∧ "training_hours_per_day" ∉ df.map Prod.fst ∧
      "rpe_score" ∉ df.map Prod.fst ∧ "weekly_training_load" ∉ df.map Prod.fst ∧
      "sleep_quality_score" ∉ df.map Prod.fst ∧ "heart_rate_avg" ∉ df.map Prod.fst ∧
      "heart_rate_max" ∉ df.map Prod.fst ∧ "carbohydrate_intake_g" ∉ df.map Prod.fst ∧
      "fat_intake_g" ∉ df.map Prod.fst ∧ "muscle_soreness_level" ∉ df.map Prod.fst ∧
      "mood_score" ∉ df.map Prod.fst ∧ "motivation_level" ∉ df.map Prod.fst ∧
      "stress_level" ∉ df.map Prod.fst) := by
  obtain ⟨_, _, hdf⟩ := generate_ok_elim h
  subst hdf
  rw [show (buildFrame seed n.toNat).map Prod.fst = ["age", "gender", "disability_type",
    "sport_type", "training_days_per_week", "sleep_hours", "heart_rate_rest",
    "daily_calorie_intake", "protein_intake_g", "water_intake_liters", "hydration_level",
    "fatigue_level", "stamina_level", "performance_score", "injury_risk_score",
    "overtraining_alert"] from rfl]
  exact ⟨rfl, by decide⟩

/-- Witness for C8 at `sample_count = 1`, `seed = 42`. -/
theorem claim_output_columns_witness :
    (buildFrame 42 1).map Prod.fst = ["age", "gender", "disability_type", "sport_type",
      "training_days_per_week", "sleep_hours", "heart_rate_rest",
      "daily_calorie_intake", "protein_intake_g", "water_intake_liters",
      "hydration_level", "fatigue_level", "stamina_level", "performance_score",
      "injury_risk_score", "overtraining_alert"] ∧
    ("athlete_id" ∉ (buildFrame 42 1).map Prod.fst ∧
      "training_hours_per_day" ∉ (buildFrame 42 1).map Prod.fst ∧
      "rpe_score" ∉ (buildFrame 42 1).map Prod.fst ∧
      "weekly_training_load" ∉ (buildFrame 42 1).map Prod.fst ∧
      "sleep_quality_score" ∉ (buildFrame 42 1).map Prod.fst ∧
      "heart_rate_avg" ∉ (buildFrame 42 1).map Prod.fst ∧
      "heart_rate_max" ∉ (buildFrame 42 1).map Prod.fst ∧
      "carbohydrate_intake_g" ∉ (buildFrame 42 1).map Prod.fst ∧
      "fat_intake_g" ∉ (buildFrame 42 1).map Prod.fst ∧
      "muscle_soreness_level" ∉ (buildFrame 42 1).map Prod.fst ∧
      "mood_score" ∉ (buildFrame 42 1).map Prod.fst ∧
      "motivation_level" ∉ (buildFrame 42 1).map Prod.fst ∧
      "stress_level" ∉ (buildFrame 42 1).map Prod.fst) :=
  claim_output_columns 1 42 (buildFrame 42 1) rfl

/-- Claim C9, amended: for every `sample_count ≥ 1` and every seed in
NumPy's accepted range `[0, 2^32)`, generation terminates normally and
returns the assembled frame without raising (the divisions whose denominator
is a zero batch statistic produce NaN cells, not errors).  `sample_count ≥ 1`
is indeed required, but for a seed outside `[0, 2^32)` `np.random.seed`
itself raises `ValueError` (see the counterexample), and at
`sample_count = 0` the first failure is the `weekly_training_load.min()`
reduction, before the percentile is ever computed. -/
theorem claim_generation_total (n seed : ℤ) (h1 : 1 ≤ n) (h2 : 0 ≤ seed)
    (h3 : seed < 4294967296) :
    generate_para_athlete_data n seed = .ok (buildFrame seed n.toNat) := by
  unfold generate_para_athlete_data
  rw [if_neg (by omega), if_neg (by omega), if_neg (by omega)]

/-- Counterexample to C9 as stated: at the valid `sample_count = 1` but
`seed = -1`, `np.random.seed` raises `ValueError` and no dataset is
returned. -/
theorem claim_generation_total_cex :
    generate_para_athlete_data 1 (-1) =
      .error (.valueError "Seed must be between 0 and 2**32 - 1") := rfl

/-- Witness for the amended C9 at `sample_count = 1`, `seed = 42`. -/
theorem claim_generation_total_witness :
    generate_para_athlete_data 1 42 = .ok (buildFrame 42 1) :=
  claim_generation_total 1 42 (by decide) (by decide) (by decide)

/-- Claim C10: in every generated batch whose `weekly_training_load` column
has nonzero standard deviation, every record satisfies
`heart_rate_rest < heart_rate_avg < heart_rate_max` after all clipping and
rounding, even though `heart_rate_max` is derived from the unclipped
average. -/
theorem claim_heart_rate_ordering (n seed : ℤ) (df : DataFrame) (i : ℕ)
    (h : generate_para_athlete_data n seed = .ok df)
    (hstd : npStdQ (weekly_training_load_col seed n.toNat) ≠ 0)
    (hi : i < n.toNat) :
    npLtB (heart_rate_rest seed n.toNat i) (heart_rate_avg seed n.toNat i) = true ∧
    npLtB (heart_rate_avg seed n.toNat i) (heart_rate_max seed n.toNat i) = true := by
  obtain ⟨r, hr, hr45, hr90⟩ := heart_rate_rest_spec i hstd
  obtain ⟨hu1a, hu1b⟩ :=
    uniformD_mem (by norm_num : (30 : ℚ) < 60) (U_mem seed (10 * n.toNat + i))
  obtain ⟨hu2a, hu2b⟩ :=
    uniformD_mem (by norm_num : (10 : ℚ) < 30) (U_mem seed (11 * n.toNat + i))
  have havg : heart_rate_avg seed n.toNat i =
      some (roundTo 0 (clipQ (r + uniformD 30 60 (U seed (10 * n.toNat + i))) 90 180)) := by
    unfold heart_rate_avg heart_rate_avg_raw
    rw [hr, npAdd_some]
    rfl
  have hmax : heart_rate_max seed n.toNat i =
      some (roundTo 0 (clipQ (r + uniformD 30 60 (U seed (10 * n.toNat + i)) +
        uniformD 10 30 (U seed (11 * n.toNat + i))) 120 210)) := by
    unfold heart_rate_max heart_rate_max_raw heart_rate_avg_raw
    rw [hr, npAdd_some, npAdd_some]
    rfl
  obtain ⟨hc1, hc2⟩ := hr_chain hr45 hr90 hu1a hu1b hu2a hu2b
  constructor
  · rw [hr, havg]
    show decide (r < roundTo 0 (clipQ (r + uniformD 30 60 (U seed (10 * n.toNat + i))) 90 180))
      = true
    exact decide_eq_true hc1
  · rw [havg, hmax]
    show decide (roundTo 0 (clipQ (r + uniformD 30 60 (U seed (10 * n.toNat + i))) 90 180) <
      roundTo 0 (clipQ (r + uniformD 30 60 (U seed (10 * n.toNat + i)) +
        uniformD 10 30 (U seed (11 * n.toNat + i))) 120 210)) = true
    exact decide_eq_true hc2

/-- Witness for C10 at `sample_count = 2`, `seed = 42`, record 0. -/
theorem claim_heart_rate_ordering_witness :
    npLtB (heart_rate_rest 42 2 0) (heart_rate_avg 42 2 0) = true ∧
    npLtB (heart_rate_avg 42 2 0) (heart_rate_max 42 2 0) = true :=
  claim_heart_rate_ordering 2 42 (buildFrame 42 2) 0 rfl std_load_42_2 (by decide)

end ParaAthlete
